import Mathlib

/-
Verification of the clink injection/invocation core and its Lua os bindings.

Part 1 embeds the Lua os.* binding layer from src/clink/lua/src/os_api.cpp.
Part 2 embeds the process component.  Only the header
src/clink/process/include/process/process.h is available; the bodies of
remote_call_internal, inject_module, pause(bool), open and the constructor are
modelled from the specification (sections 4.1 to 4.6), as marked on each
definition.
-/

/-  Lua values as they cross the binding boundary.  Tables appear in two
shapes in os_api.cpp: an array part (tbl_arr) and a record of string-keyed
fields (tbl_rec), which is what glob_impl builds per entry. -/
inductive lua_value where
  | nil : lua_value
  | boolean : Bool → lua_value
  | str : String → lua_value
  | num : Int → lua_value
  | tbl_arr : List lua_value → lua_value
  | tbl_rec : List (String × lua_value) → lua_value

/-  os::path_type from core/os.h (not under src; values as used by is_dir and
is_file in os_api.cpp). -/
inductive path_type where
  | path_type_invalid : path_type
  | path_type_file : path_type
  | path_type_dir : path_type
deriving DecidableEq

/-  One globber hit: a file name plus its attribute bitmask
(16 = directory, 2 = hidden, 1 = readonly, as in the Windows constants). -/
structure glob_entry where
  name : String
  attr : Nat

/-  The operating-system operations the bindings delegate to, as an oracle.
glob takes mask, files, hidden, system, suffix_dirs in that order, matching
the globber configuration calls in glob_impl.  glob_hidden and glob_system
stand for the settings g_glob_hidden and g_glob_system. -/
structure os_ops where
  set_current_dir : String → Bool
  make_dir : String → Bool
  remove_dir : String → Bool
  get_path_type : String → path_type
  is_hidden : String → Bool
  unlink : String → Bool
  move : String → String → Bool
  copy : String → String → Bool
  get_env : String → Option String
  set_env : String → Option String → Bool
  glob : String → Bool → Bool → Bool → Bool → List glob_entry
  glob_hidden : Bool
  glob_system : Bool

/-  get_string from os_api.cpp lines 23-29: nullptr when the stack has fewer
than index values or the value is not a string.  The Lua API predicate
lua_isstring also accepts numbers and lua_tostring coerces them, which this
model reproduces. -/
def get_string (args : List lua_value) (index : Nat) : Option String :=
  match args.get? (index - 1) with
  | some (lua_value.str s) => some s
  | some (lua_value.num n) => some (toString n)
  | _ => none

/-  lua_toboolean: nil and false are false, any other present value is true,
an absent index is false. -/
def lua_toboolean (args : List lua_value) (index : Nat) : Bool :=
  match args.get? (index - 1) with
  | none => false
  | some lua_value.nil => false
  | some (lua_value.boolean b) => b
  | some _ => true

/-  Each binding returns the list of Lua values it pushes together with a log
of the underlying os operations it invoked, so that "the argument never
reaches the os operation" is the statement that the log is empty. -/

/-  os.chdir (set_current_dir, os_api.cpp lines 37-45). -/
def set_current_dir (ops : os_ops) (args : List lua_value) :
    List lua_value × List String :=
  match get_string args 1 with
  | some dir => ([lua_value.boolean (ops.set_current_dir dir)], ["os.set_current_dir"])
  | none => ([lua_value.boolean false], [])

/-  os.mkdir (make_dir, lines 66-74). -/
def make_dir (ops : os_ops) (args : List lua_value) :
    List lua_value × List String :=
  match get_string args 1 with
  | some dir => ([lua_value.boolean (ops.make_dir dir)], ["os.make_dir"])
  | none => ([lua_value.boolean false], [])

/-  os.rmdir (remove_dir, lines 82-90). -/
def remove_dir (ops : os_ops) (args : List lua_value) :
    List lua_value × List String :=
  match get_string args 1 with
  | some dir => ([lua_value.boolean (ops.remove_dir dir)], ["os.remove_dir"])
  | none => ([lua_value.boolean false], [])

/-  os.isdir (is_dir, lines 97-105). -/
def is_dir (ops : os_ops) (args : List lua_value) :
    List lua_value × List String :=
  match get_string args 1 with
  | none => ([], [])
  | some path =>
      ([lua_value.boolean (decide (ops.get_path_type path = path_type.path_type_dir))],
       ["os.get_path_type"])

/-  os.isfile (is_file, lines 112-120). -/
def is_file (ops : os_ops) (args : List lua_value) :
    List lua_value × List String :=
  match get_string args 1 with
  | none => ([], [])
  | some path =>
      ([lua_value.boolean (decide (ops.get_path_type path = path_type.path_type_file))],
       ["os.get_path_type"])

/-  os.ishidden (is_hidden, lines 127-135). -/
def is_hidden (ops : os_ops) (args : List lua_value) :
    List lua_value × List String :=
  match get_string args 1 with
  | none => ([], [])
  | some path => ([lua_value.boolean (ops.is_hidden path)], ["os.is_hidden"])

/-  os.unlink (unlink, lines 143-159). -/
def unlink (ops : os_ops) (args : List lua_value) :
    List lua_value × List String :=
  match get_string args 1 with
  | none => ([], [])
  | some path =>
      if ops.unlink path then ([lua_value.boolean true], ["os.unlink"])
      else ([lua_value.nil, lua_value.str "error", lua_value.num 1], ["os.unlink"])

/-  os.move (move, lines 168-182); os::move is called only when both strings
are present (short-circuit in the source condition). -/
def move (ops : os_ops) (args : List lua_value) :
    List lua_value × List String :=
  match get_string args 1, get_string args 2 with
  | some src, some dest =>
      if ops.move src dest then ([lua_value.boolean true], ["os.move"])
      else ([lua_value.nil, lua_value.str "error", lua_value.num 1], ["os.move"])
  | _, _ => ([lua_value.nil, lua_value.str "error", lua_value.num 1], [])

/-  os.copy (copy, lines 191-200). -/
def copy (ops : os_ops) (args : List lua_value) :
    List lua_value × List String :=
  match get_string args 1, get_string args 2 with
  | some src, some dest => ([lua_value.boolean (ops.copy src dest)], ["os.copy"])
  | _, _ => ([], [])

/-  add_type_tag (lines 203-208). -/
def add_type_tag (out : String) (tag : String) : String :=
  if out.length ≠ 0 then out ++ "," ++ tag else out ++ tag

/-  The type string built per entry in glob_impl (lines 246-253). -/
def glob_type_string (attr : Nat) : String :=
  let t0 := add_type_tag "" (if attr.land 16 ≠ 0 then "dir" else "file")
  let t1 := if attr.land 2 ≠ 0 then add_type_tag t0 "hidden" else t0
  if attr.land 1 ≠ 0 then add_type_tag t1 "readonly" else t1

/-  One table slot built per globber hit (lines 234-255). -/
def glob_entry_value (back_compat : Bool) (e : glob_entry) : lua_value :=
  if back_compat then lua_value.str e.name
  else lua_value.tbl_rec
    [("name", lua_value.str e.name), ("type", lua_value.str (glob_type_string e.attr))]

/-  glob_impl (lines 211-261).  Note the computed extrainfo flag is unused in
the loop of the source, which this model keeps. -/
def glob_impl (ops : os_ops) (args : List lua_value) (dirs_only : Bool)
    (back_compat : Bool) : List lua_value × List String :=
  match get_string args 1 with
  | none => ([], [])
  | some mask =>
      let _extrainfo := if back_compat then false else lua_toboolean args 2
      let entries := ops.glob mask (!dirs_only) ops.glob_hidden ops.glob_system (!back_compat)
      ([lua_value.tbl_arr (entries.map (glob_entry_value back_compat))], ["os.glob"])

/-  os.globdirs (lines 282-285). -/
def glob_dirs (ops : os_ops) (args : List lua_value) :
    List lua_value × List String :=
  glob_impl ops args true false

/-  os.globfiles (lines 306-309). -/
def glob_files (ops : os_ops) (args : List lua_value) :
    List lua_value × List String :=
  glob_impl ops args false false

/-  os.getenv (get_env, lines 321-333). -/
def get_env (ops : os_ops) (args : List lua_value) :
    List lua_value × List String :=
  match get_string args 1 with
  | none => ([], [])
  | some name =>
      match ops.get_env name with
      | none => ([], ["os.get_env"])
      | some value => ([lua_value.str value], ["os.get_env"])

/-  os.setenv (set_env, lines 342-352).  A missing name returns no values; a
missing value is passed through to os::set_env as an absent string. -/
def set_env (ops : os_ops) (args : List lua_value) :
    List lua_value × List String :=
  match get_string args 1 with
  | none => ([], [])
  | some name =>
      ([lua_value.boolean (ops.set_env name (get_string args 2))], ["os.set_env"])

/-  A concrete oracle used to evaluate the bindings on closed inputs. -/
def stub_ops : os_ops :=
  ⟨fun _ => true, fun _ => true, fun _ => true, fun _ => path_type.path_type_invalid,
   fun _ => false, fun _ => true, fun _ _ => true, fun _ _ => true,
   fun _ => none, fun _ _ => true, fun _ _ _ _ _ => [], false, false⟩

/-  Part 2: the process component. -/

/-  The error taxonomy of specification section 7. -/
inductive errkind where
  | NoSuchProcess : errkind
  | AccessDenied : errkind
  | ArchitectureMismatch : errkind
  | RemoteAllocFailed : errkind
  | RemoteWriteFailed : errkind
  | RemoteThreadCreateFailed : errkind
  | ModuleLoadRejected : errkind
deriving DecidableEq

/-  process::arch from process.h line 14. -/
inductive process.arch where
  | arch_unknown : process.arch
  | arch_x86 : process.arch
  | arch_x64 : process.arch
deriving DecidableEq

/-  The process entity; process.h line 32 stores only the pid. -/
structure process where
  m_pid : Int

/-  process::get_pid, process.h lines 45-48. -/
def process.get_pid (p : process) : Int :=
  p.m_pid

/-  The default pid of the constructor declaration, process.h line 17. -/
def process.default_pid : Int := -1

/-- Modelled from the spec: the constructor process(int pid=-1) (body not
under src) stores the given pid; -1 denotes the calling process. -/
def process.construct (pid : Int) : process :=
  ⟨pid⟩

/-- Modelled from the spec: open(pid) of section 4.1 (body not under src)
fails with NoSuchProcess when the pid does not exist, AccessDenied when the
caller lacks privilege, and pid = -1 denotes the calling process and always
succeeds.  running lists the live pids; access_ok tells which pids the caller
may open. -/
def open_process (pid : Int) (running : List Int) (access_ok : Int → Bool) :
    Except errkind process :=
  if pid = -1 then Except.ok (process.construct (-1))
  else if running.contains pid = false then Except.error errkind.NoSuchProcess
  else if access_ok pid = false then Except.error errkind.AccessDenied
  else Except.ok (process.construct pid)

/-  process::handle, process.h lines 34-41: stores the raw HANDLE; the
conversion to bool is false for nullptr (0) and INVALID_HANDLE_VALUE (-1). -/
structure process.handle where
  m_handle : Int

def process.handle.bool_op (h : process.handle) : Bool :=
  decide (h.m_handle ≠ 0) && decide (h.m_handle ≠ -1)

/-- Modelled from the spec: compatible(process) of section 4.2 (body not
under src) is false whenever the architectures differ or the target
architecture cannot be determined. -/
def compatible (caller target : process.arch) : Bool :=
  decide (target ≠ process.arch.arch_unknown) && decide (caller = target)

/-  Target-side accounting: live remote memory regions and live remote
threads created in the target by this core. -/
structure target_state where
  regions : Nat
  threads : Nat
deriving DecidableEq

def alloc_region (s : target_state) : target_state :=
  ⟨s.regions + 1, s.threads⟩

def free_region (s : target_state) : target_state :=
  ⟨s.regions - 1, s.threads⟩

def spawn_thread (s : target_state) : target_state :=
  ⟨s.regions, s.threads + 1⟩

def reap_thread (s : target_state) : target_state :=
  ⟨s.regions, s.threads - 1⟩

/-  The cross-process operations remote_call_internal performs, in order. -/
inductive os_op where
  | op_alloc : Nat → os_op
  | op_write : List Nat → os_op
  | op_create_thread : Nat → os_op
  | op_wait : os_op
  | op_read_exit : os_op
  | op_free_mem : os_op
  | op_close_handle : os_op
deriving DecidableEq

/-  Which steps the operating system lets succeed, and the exit value of the
remote thread when it runs. -/
structure os_behavior where
  alloc_ok : Bool
  write_ok : Bool
  thread_ok : Bool
  exit_value : Nat

/-  The outcome of one remote call: the pointer-sized value surfaced to the
caller, the internal failure kind (none when the mechanism completed), the
target accounting after return, and the trace of attempted operations. -/
structure call_result where
  value : Nat
  err : Option errkind
  state : target_state
  trace : List os_op
deriving DecidableEq

/-- Modelled from the spec: remote_call_internal (declared process.h lines
29-30, body not under src) follows steps 1-7 of section 4.4: architecture
check, allocate a region sized to the buffer, write the buffer, create a
remote thread on the entry point, wait, read the exit value, then free the
region and close the thread handle; a failure at any step short-circuits the
rest, performs the cleanup already owed and surfaces a zero value. -/
def remote_call_internal (os : os_behavior) (caller target : process.arch)
    (s : target_state) (entry : Nat) (buffer : List Nat) : call_result :=
  if compatible caller target = false then
    ⟨0, some errkind.ArchitectureMismatch, s, []⟩
  else if os.alloc_ok = false then
    ⟨0, some errkind.RemoteAllocFailed, s, [os_op.op_alloc buffer.length]⟩
  else
    let s1 := alloc_region s
    if os.write_ok = false then
      ⟨0, some errkind.RemoteWriteFailed, free_region s1,
       [os_op.op_alloc buffer.length, os_op.op_write buffer, os_op.op_free_mem]⟩
    else if os.thread_ok = false then
      ⟨0, some errkind.RemoteThreadCreateFailed, free_region s1,
       [os_op.op_alloc buffer.length, os_op.op_write buffer,
        os_op.op_create_thread entry, os_op.op_free_mem]⟩
    else
      let s2 := spawn_thread s1
      let s3 := reap_thread s2
      ⟨os.exit_value, none, free_region s3,
       [os_op.op_alloc buffer.length, os_op.op_write buffer,
        os_op.op_create_thread entry, os_op.op_wait, os_op.op_read_exit,
        os_op.op_free_mem, os_op.op_close_handle]⟩

/-- Modelled from the spec: the two-block remote_call_internal (process.h
line 30, body not under src) serializes the two parameter blobs into one
contiguous buffer, first blob first (section 4.4 step 2), and proceeds as the
one-block form. -/
def remote_call_internal2 (os : os_behavior) (caller target : process.arch)
    (s : target_state) (entry : Nat) (param1 param2 : List Nat) : call_result :=
  remote_call_internal os caller target s entry (param1 ++ param2)

/-  The one-parameter remote_call template, process.h lines 51-55: forwards
the parameter bytes and their size.  A parameter is embedded as its natural
byte representation, so sizeof is the list length. -/
def remote_call1 (os : os_behavior) (caller target : process.arch)
    (s : target_state) (entry : Nat) (param : List Nat) : call_result :=
  remote_call_internal os caller target s entry param

/-  The two-parameter remote_call template, process.h lines 58-62. -/
def remote_call2 (os : os_behavior) (caller target : process.arch)
    (s : target_state) (entry : Nat) (param1 param2 : List Nat) : call_result :=
  remote_call_internal2 os caller target s entry param1 param2

/-  Why the target loader may reject a module (section 4.5); the core reports
them uniformly. -/
inductive reject_reason where
  | missing_deps : reject_reason
  | invalid_image : reject_reason
  | access_denied : reject_reason
deriving DecidableEq

inductive loader_outcome where
  | loaded : Nat → loader_outcome
  | rejected : reject_reason → loader_outcome
deriving DecidableEq

/-  The value the loader routine returns as a thread exit value: the module
base on success, zero on any rejection. -/
def loader_result : loader_outcome → Nat
  | loader_outcome.loaded base => base
  | loader_outcome.rejected _ => 0

/-  The module path including its terminating character, as written into the
target. -/
def path_bytes (dll : String) : List Nat :=
  dll.data.map Char.toNat ++ [0]

/-- Modelled from the spec: inject_module (declared process.h line 22, body
not under src) writes the module path including its terminator into a fresh
region and performs a remote call whose entry point is the target dynamic
loader routine and whose single parameter is the written path (section 4.5);
the loader outcome becomes the thread exit value. -/
def inject_module (caller target : process.arch) (s : target_state)
    (alloc_ok write_ok thread_ok : Bool) (loader_entry : Nat)
    (outcome : loader_outcome) (dll : String) : call_result :=
  remote_call1 ⟨alloc_ok, write_ok, thread_ok, loader_result outcome⟩
    caller target s loader_entry (path_bytes dll)

/-  One thread of the target as the execution controller sees it. -/
structure sys_thread where
  tid : Nat
  suspended : Bool
deriving DecidableEq

/-- Modelled from the spec: pause(bool suspend) (process.h line 31, body not
under src) enumerates all threads owned by the target and suspends or resumes
each individually, skipping the thread performing the operation when it
belongs to the same process (section 4.6). -/
def pause_internal (threads : List sys_thread) (current_tid : Nat)
    (same_process : Bool) (suspend : Bool) : List sys_thread :=
  threads.map (fun t =>
    if same_process && decide (t.tid = current_tid) then t
    else ⟨t.tid, suspend⟩)

/-  process::pause, process.h lines 65-68. -/
def pause (threads : List sys_thread) (current_tid : Nat)
    (same_process : Bool) : List sys_thread :=
  pause_internal threads current_tid same_process true

/-  process::unpause, process.h lines 71-74. -/
def unpause (threads : List sys_thread) (current_tid : Nat)
    (same_process : Bool) : List sys_thread :=
  pause_internal threads current_tid same_process false

/-  A remote memory region as the caller-side owner sees it. -/
structure remote_region where
  allocated : Bool
  base : Nat
  size : Nat
deriving DecidableEq

/-- Modelled from the spec: free() of section 4.3 (the region type is not
under src) releases the allocation when one is held and is a no-op on an
already-freed or never-allocated region.  The second component counts the
OS-level deallocation calls the invocation performs. -/
def remote_region.free (r : remote_region) : remote_region × Nat :=
  if r.allocated then (⟨false, r.base, r.size⟩, 1) else (r, 0)

/-- Modelled from the spec: the scoped acquisition/release discipline of
section 4.1 around process.h lines 34-41: the handle wrapper runs its body
and its destructor then closes the held handle exactly once, whatever the
body returned. -/
def with_handle {α : Type} (h : Int) (body : process.handle → α × List os_op) :
    α × List os_op :=
  let r := body ⟨h⟩
  (r.1, r.2 ++ [os_op.op_close_handle])

/-  Theorems, one per claim, with witnesses for those with hypotheses. -/

/-- C9: a process id of -1 (the constructor default) denotes the calling
process itself and opening a Process with pid = -1 always succeeds; for every
pid value p the process is constructed with, get_pid returns exactly p. -/
theorem C9_default_pid_and_get_pid :
    (∀ (running : List Int) (access_ok : Int → Bool),
      open_process (-1) running access_ok = Except.ok (process.construct (-1))) ∧
    (∀ p : Int, (process.construct p).get_pid = p) ∧
    process.default_pid = -1 := by
  refine ⟨fun running access_ok => ?_, fun p => rfl, rfl⟩
  simp [open_process]

/-- C7: free on a Remote Memory Region is idempotent: on an already-freed or
never-allocated region it is a safe no-op, and calling it twice performs no
second OS-level deallocation (at most one deallocation in total). -/
theorem C7_free_idempotent (r : remote_region) :
    (r.allocated = false → remote_region.free r = (r, 0)) ∧
    (remote_region.free (remote_region.free r).1).1 = (remote_region.free r).1 ∧
    (remote_region.free (remote_region.free r).1).2 = 0 ∧
    (remote_region.free r).2 + (remote_region.free (remote_region.free r).1).2 ≤ 1 := by
  rcases r with ⟨a, b, sz⟩
  cases a <;> simp [remote_region.free]

/-- Witness for C7 at a concrete never-allocated region. -/
theorem C7_free_idempotent_witness :
    (⟨false, 4, 8⟩ : remote_region).allocated = false ∧
    remote_region.free ⟨false, 4, 8⟩ = (⟨false, 4, 8⟩, 0) ∧
    (remote_region.free (remote_region.free ⟨false, 4, 8⟩).1).2 = 0 :=
  ⟨rfl, (C7_free_idempotent ⟨false, 4, 8⟩).1 rfl, (C7_free_idempotent ⟨false, 4, 8⟩).2.2.1⟩

/-- C8: the OS-level handle is owned by the scope that acquired it and its
destruction releases it exactly once, whatever the body did or returned; a
null or invalid raw handle converts to false. -/
theorem C8_handle_closed_once :
    (∀ (α : Type) (h : Int) (body : process.handle → α × List os_op),
      (body ⟨h⟩).2.countP (fun x => decide (x = os_op.op_close_handle)) = 0 →
      (with_handle h body).2.countP (fun x => decide (x = os_op.op_close_handle)) = 1) ∧
    (∀ (α : Type) (h : Int) (body : process.handle → α × List os_op),
      (with_handle h body).2.countP (fun x => decide (x = os_op.op_close_handle)) =
        (body ⟨h⟩).2.countP (fun x => decide (x = os_op.op_close_handle)) + 1) ∧
    process.handle.bool_op ⟨0⟩ = false ∧
    process.handle.bool_op ⟨-1⟩ = false := by
  refine ⟨?_, ?_, by decide, by decide⟩
  · intro α h body hb
    simp [with_handle, List.countP_append, hb]
  · intro α h body
    simp [with_handle, List.countP_append]

/-- Witness for C8 with a body that performs no close of its own. -/
theorem C8_handle_closed_once_witness :
    ((fun _ : process.handle => ((), ([] : List os_op))) ⟨(5 : Int)⟩).2.countP
      (fun x => decide (x = os_op.op_close_handle)) = 0 ∧
    (with_handle 5 (fun _ : process.handle => ((), ([] : List os_op)))).2.countP
      (fun x => decide (x = os_op.op_close_handle)) = 1 :=
  ⟨rfl, C8_handle_closed_once.1 Unit 5 (fun _ => ((), [])) rfl⟩

/-- C2: compatible is false whenever the architectures differ or the target
architecture is unknown, and with an incompatible target both remote_call and
inject_module fail fast with ArchitectureMismatch, with an empty operation
trace, so no remote memory allocation is attempted. -/
theorem C2_arch_mismatch_fail_fast :
    (∀ a b : process.arch, a ≠ b → compatible a b = false) ∧
    (∀ a : process.arch, compatible a process.arch.arch_unknown = false) ∧
    (∀ (os : os_behavior) (caller target : process.arch) (s : target_state)
        (entry : Nat) (buffer : List Nat), compatible caller target = false →
      remote_call_internal os caller target s entry buffer =
        ⟨0, some errkind.ArchitectureMismatch, s, []⟩) ∧
    (∀ (caller target : process.arch) (s : target_state) (a w t : Bool)
        (le : Nat) (oc : loader_outcome) (dll : String),
      compatible caller target = false →
      inject_module caller target s a w t le oc dll =
        ⟨0, some errkind.ArchitectureMismatch, s, []⟩) := by
  refine ⟨?_, ?_, ?_, ?_⟩
  · intro a b hab
    cases a <;> cases b <;> first | rfl | exact absurd rfl hab
  · intro a
    rfl
  · intro os caller target s entry buffer h
    simp [remote_call_internal, h]
  · intro caller target s a w t le oc dll h
    simp [inject_module, remote_call1, remote_call_internal, h]

/-- Witness for C2 at a 32-bit target probed by a 64-bit caller. -/
theorem C2_arch_mismatch_fail_fast_witness :
    compatible process.arch.arch_x64 process.arch.arch_x86 = false ∧
    remote_call_internal ⟨true, true, true, 3⟩ process.arch.arch_x64
      process.arch.arch_x86 ⟨2, 1⟩ 7 [9] =
      ⟨0, some errkind.ArchitectureMismatch, ⟨2, 1⟩, []⟩ :=
  ⟨rfl, C2_arch_mismatch_fail_fast.2.2.1 ⟨true, true, true, 3⟩
    process.arch.arch_x64 process.arch.arch_x86 ⟨2, 1⟩ 7 [9] rfl⟩

/-- C1: for every valid same-architecture remote call, whether it succeeds or
fails at any step, after return the target has zero remote memory regions
still allocated by the call and zero remote threads still alive: the
accounting returns to its initial value, the region is freed whenever the
allocation succeeded, and the thread handle is closed on the completed
path. -/
theorem C1_remote_call_no_leaks (os : os_behavior) (caller target : process.arch)
    (s : target_state) (entry : Nat) (buffer : List Nat)
    (h : compatible caller target = true) :
    (remote_call_internal os caller target s entry buffer).state = s ∧
    (os.alloc_ok = true →
      os_op.op_free_mem ∈ (remote_call_internal os caller target s entry buffer).trace) ∧
    (os.alloc_ok = true → os.write_ok = true → os.thread_ok = true →
      os_op.op_close_handle ∈
        (remote_call_internal os caller target s entry buffer).trace) := by
  rcases os with ⟨a, w, t, v⟩
  rcases s with ⟨rg, th⟩
  cases a <;> cases w <;> cases t <;>
    simp [remote_call_internal, h, alloc_region, free_region, spawn_thread, reap_thread]

/-- Witness for C1 at a concrete same-architecture call. -/
theorem C1_remote_call_no_leaks_witness :
    compatible process.arch.arch_x64 process.arch.arch_x64 = true ∧
    (remote_call_internal ⟨true, true, true, 5⟩ process.arch.arch_x64
      process.arch.arch_x64 ⟨0, 0⟩ 1 [1, 2]).state = ⟨0, 0⟩ :=
  ⟨rfl, (C1_remote_call_no_leaks ⟨true, true, true, 5⟩ process.arch.arch_x64
    process.arch.arch_x64 ⟨0, 0⟩ 1 [1, 2] rfl).1⟩

/-- C3: the payload of a two-parameter remote_call is exactly the two
parameter byte blobs concatenated in call order into one contiguous buffer of
size equal to the sum of the two sizes, with the first parameter first; the
one-parameter form passes the single blob unchanged. -/
theorem C3_payload_concatenation (os : os_behavior) (caller target : process.arch)
    (s : target_state) (entry : Nat) (param1 param2 : List Nat)
    (hc : compatible caller target = true) (ha : os.alloc_ok = true)
    (hw : os.write_ok = true) :
    remote_call2 os caller target s entry param1 param2 =
      remote_call_internal os caller target s entry (param1 ++ param2) ∧
    os_op.op_write (param1 ++ param2) ∈
      (remote_call2 os caller target s entry param1 param2).trace ∧
    (remote_call2 os caller target s entry param1 param2).trace.head? =
      some (os_op.op_alloc (param1.length + param2.length)) ∧
    (param1 ++ param2).length = param1.length + param2.length ∧
    (param1 ++ param2).take param1.length = param1 ∧
    (param1 ++ param2).drop param1.length = param2 ∧
    remote_call1 os caller target s entry param1 =
      remote_call_internal os caller target s entry param1 := by
  refine ⟨rfl, ?_, ?_, List.length_append param1 param2,
    List.take_left param1 param2, List.drop_left param1 param2, rfl⟩ <;>
  · by_cases ht : os.thread_ok = false <;>
      simp [remote_call2, remote_call_internal2, remote_call_internal,
        hc, ha, hw, ht, List.length_append]

/-- Witness for C3 at a concrete two-parameter call. -/
theorem C3_payload_concatenation_witness :
    compatible process.arch.arch_x86 process.arch.arch_x86 = true ∧
    (⟨true, true, true, 9⟩ : os_behavior).alloc_ok = true ∧
    (⟨true, true, true, 9⟩ : os_behavior).write_ok = true ∧
    os_op.op_write ([1, 2] ++ [3]) ∈
      (remote_call2 ⟨true, true, true, 9⟩ process.arch.arch_x86
        process.arch.arch_x86 ⟨0, 0⟩ 4 [1, 2] [3]).trace :=
  ⟨rfl, rfl, rfl, (C3_payload_concatenation ⟨true, true, true, 9⟩
    process.arch.arch_x86 process.arch.arch_x86 ⟨0, 0⟩ 4 [1, 2] [3]
    rfl rfl rfl).2.1⟩

/-- C4: a failure at any step of remote_call short-circuits the remaining
steps, still performs the cleanup already owed, and surfaces a zero value and
the initial accounting; consequently a zero return does not distinguish a
mechanism failure from the target genuinely returning zero. -/
theorem C4_failure_short_circuits :
    (∀ (os : os_behavior) (caller target : process.arch) (s : target_state)
        (entry : Nat) (buffer : List Nat),
      (remote_call_internal os caller target s entry buffer).err ≠ none →
        (remote_call_internal os caller target s entry buffer).value = 0 ∧
        (remote_call_internal os caller target s entry buffer).state = s) ∧
    (∀ (os : os_behavior) (caller target : process.arch) (s : target_state)
        (entry : Nat) (buffer : List Nat),
      (remote_call_internal os caller target s entry buffer).err =
          some errkind.RemoteAllocFailed →
        (remote_call_internal os caller target s entry buffer).trace =
          [os_op.op_alloc buffer.length]) ∧
    (∀ (os : os_behavior) (caller target : process.arch) (s : target_state)
        (entry : Nat) (buffer : List Nat),
      (remote_call_internal os caller target s entry buffer).err =
          some errkind.RemoteWriteFailed →
        os_op.op_create_thread entry ∉
          (remote_call_internal os caller target s entry buffer).trace ∧
        os_op.op_free_mem ∈
          (remote_call_internal os caller target s entry buffer).trace) ∧
    (∀ (os : os_behavior) (caller target : process.arch) (s : target_state)
        (entry : Nat) (buffer : List Nat),
      (remote_call_internal os caller target s entry buffer).err =
          some errkind.RemoteThreadCreateFailed →
        os_op.op_wait ∉
          (remote_call_internal os caller target s entry buffer).trace ∧
        os_op.op_free_mem ∈
          (remote_call_internal os caller target s entry buffer).trace) ∧
    (∀ (caller target : process.arch) (s : target_state) (entry : Nat)
        (buffer : List Nat), compatible caller target = true →
      (remote_call_internal ⟨true, true, true, 0⟩ caller target s entry buffer).value = 0 ∧
      (remote_call_internal ⟨true, true, true, 0⟩ caller target s entry buffer).err = none ∧
      (remote_call_internal ⟨false, true, true, 7⟩ caller target s entry buffer).value = 0 ∧
      (remote_call_internal ⟨false, true, true, 7⟩ caller target s entry buffer).err ≠
        none) := by
  refine ⟨?_, ?_, ?_, ?_, ?_⟩
  · intro os caller target s entry buffer h
    rcases os with ⟨a, w, t, v⟩
    rcases s with ⟨rg, th⟩
    by_cases hc : compatible caller target = false <;> cases a <;> cases w <;> cases t <;>
      simp_all [remote_call_internal, alloc_region, free_region, spawn_thread, reap_thread]
  · intro os caller target s entry buffer h
    rcases os with ⟨a, w, t, v⟩
    by_cases hc : compatible caller target = false <;> cases a <;> cases w <;> cases t <;>
      simp_all [remote_call_internal]
  · intro os caller target s entry buffer h
    rcases os with ⟨a, w, t, v⟩
    by_cases hc : compatible caller target = false <;> cases a <;> cases w <;> cases t <;>
      simp_all [remote_call_internal]
  · intro os caller target s entry buffer h
    rcases os with ⟨a, w, t, v⟩
    by_cases hc : compatible caller target = false <;> cases a <;> cases w <;> cases t <;>
      simp_all [remote_call_internal]
  · intro caller target s entry buffer hcc
    simp [remote_call_internal, hcc]

/-- Witness for C4 at a concrete failing allocation. -/
theorem C4_failure_short_circuits_witness :
    (remote_call_internal ⟨false, true, true, 7⟩ process.arch.arch_x64
      process.arch.arch_x64 ⟨3, 4⟩ 2 [5]).err ≠ none ∧
    (remote_call_internal ⟨false, true, true, 7⟩ process.arch.arch_x64
      process.arch.arch_x64 ⟨3, 4⟩ 2 [5]).value = 0 ∧
    (remote_call_internal ⟨false, true, true, 7⟩ process.arch.arch_x64
      process.arch.arch_x64 ⟨3, 4⟩ 2 [5]).state = ⟨3, 4⟩ :=
  ⟨by decide,
   (C4_failure_short_circuits.1 ⟨false, true, true, 7⟩ process.arch.arch_x64
     process.arch.arch_x64 ⟨3, 4⟩ 2 [5] (by decide)).1,
   (C4_failure_short_circuits.1 ⟨false, true, true, 7⟩ process.arch.arch_x64
     process.arch.arch_x64 ⟨3, 4⟩ 2 [5] (by decide)).2⟩

/-- C5: inject_module writes the module path including its terminating
character into the freshly allocated region, performs a remote call whose
entry point is the loader routine and whose single parameter is the written
path, returns the loaded module base on success and zero whenever the loader
rejects the module, with every rejection sub-reason reported uniformly. -/
theorem C5_inject_module_contract (caller target : process.arch)
    (s : target_state) (loader_entry : Nat) (outcome : loader_outcome)
    (dll : String) (hc : compatible caller target = true) :
    (inject_module caller target s true true true loader_entry outcome dll).value =
      loader_result outcome ∧
    (inject_module caller target s true true true loader_entry outcome dll).err = none ∧
    os_op.op_write (path_bytes dll) ∈
      (inject_module caller target s true true true loader_entry outcome dll).trace ∧
    os_op.op_create_thread loader_entry ∈
      (inject_module caller target s true true true loader_entry outcome dll).trace ∧
    path_bytes dll = dll.data.map Char.toNat ++ [0] ∧
    (path_bytes dll).getLast? = some 0 ∧
    (∀ base, outcome = loader_outcome.loaded base →
      (inject_module caller target s true true true loader_entry outcome dll).value =
        base) ∧
    (∀ r, outcome = loader_outcome.rejected r →
      (inject_module caller target s true true true loader_entry outcome dll).value =
        0) ∧
    (∀ (r1 r2 : reject_reason) (a w t : Bool),
      inject_module caller target s a w t loader_entry
          (loader_outcome.rejected r1) dll =
        inject_module caller target s a w t loader_entry
          (loader_outcome.rejected r2) dll) := by
  refine ⟨?_, ?_, ?_, ?_, rfl, List.getLast?_concat (dll.data.map Char.toNat),
    ?_, ?_, ?_⟩
  · simp [inject_module, remote_call1, remote_call_internal, hc]
  · simp [inject_module, remote_call1, remote_call_internal, hc]
  · simp [inject_module, remote_call1, remote_call_internal, hc]
  · simp [inject_module, remote_call1, remote_call_internal, hc]
  · intro base hb
    subst hb
    simp [inject_module, remote_call1, remote_call_internal, hc, loader_result]
  · intro r hr
    subst hr
    simp [inject_module, remote_call1, remote_call_internal, hc, loader_result]
  · intro r1 r2 a w t
    simp [inject_module, loader_result]

/-- Witness for C5 at a concrete rejected injection. -/
theorem C5_inject_module_contract_witness :
    compatible process.arch.arch_x86 process.arch.arch_x86 = true ∧
    (inject_module process.arch.arch_x86 process.arch.arch_x86 ⟨0, 0⟩
      true true true 11 (loader_outcome.rejected reject_reason.missing_deps)
      "m.dll").value =
      loader_result (loader_outcome.rejected reject_reason.missing_deps) :=
  ⟨rfl, (C5_inject_module_contract process.arch.arch_x86 process.arch.arch_x86
    ⟨0, 0⟩ 11 (loader_outcome.rejected reject_reason.missing_deps) "m.dll"
    rfl).1⟩

/-- C6: pause then unpause on an otherwise-idle target restores exactly the
set of threads that was running before the pause, leaving no thread
suspended; pause enumerates all threads and suspends each individually,
skipping the operating thread only when it belongs to the same process. -/
theorem C6_pause_unpause_roundtrip (ts : List sys_thread) (cur : Nat)
    (same : Bool) (hidle : ∀ t ∈ ts, t.suspended = false) :
    unpause (pause ts cur same) cur same = ts ∧
    (∀ t ∈ unpause (pause ts cur same) cur same, t.suspended = false) ∧
    (∀ t ∈ pause ts cur true,
      (t.tid = cur → t ∈ ts) ∧ (t.tid ≠ cur → t.suspended = true)) ∧
    (∀ suspend : Bool, pause_internal ts cur false suspend =
      ts.map (fun t => ⟨t.tid, suspend⟩)) := by
  have key : ∀ (l : List sys_thread), (∀ t ∈ l, t.suspended = false) →
      pause_internal (pause_internal l cur same true) cur same false = l := by
    intro l
    induction l with
    | nil => intro _; rfl
    | cons hd tl ih =>
      intro hl
      have htl : ∀ t ∈ tl, t.suspended = false :=
        fun t ht => hl t (List.mem_cons_of_mem _ ht)
      have hsu : hd.suspended = false := hl hd (List.mem_cons_self _ _)
      rcases hd with ⟨tid, su⟩
      subst hsu
      have ihtl := ih htl
      simp [pause_internal, List.map_map] at ihtl ⊢
      refine ⟨?_, ihtl⟩
      by_cases hp : same = true ∧ tid = cur
      · simp [hp]
      · simp [hp]
  have h1 : unpause (pause ts cur same) cur same = ts := key ts hidle
  refine ⟨h1, ?_, ?_, ?_⟩
  · rw [h1]
    exact hidle
  · intro t ht
    rcases List.mem_map.1 ht with ⟨t0, ht0, heq⟩
    by_cases hb : decide (t0.tid = cur) = true
    · have htid : t0.tid = cur := of_decide_eq_true hb
      have ht' : t = t0 := by
        simpa [hb] using heq.symm
      subst ht'
      exact ⟨fun _ => ht0, fun hne => absurd htid hne⟩
    · have hne0 : t = ⟨t0.tid, true⟩ := by
        have hb2 : decide (t0.tid = cur) = false := by simpa using hb
        simpa [hb2] using heq.symm
      subst hne0
      refine ⟨fun hcur => ?_, fun _ => rfl⟩
      exact absurd (of_decide_eq_true (by simpa using hcur))
        (fun hx => hb (decide_eq_true hx))
  · intro suspend
    simp [pause_internal]

/-- Witness for C6 on a concrete two-thread idle target. -/
theorem C6_pause_unpause_roundtrip_witness :
    (∀ t ∈ [(⟨1, false⟩ : sys_thread), ⟨2, false⟩], t.suspended = false) ∧
    unpause (pause [(⟨1, false⟩ : sys_thread), ⟨2, false⟩] 1 true) 1 true =
      [(⟨1, false⟩ : sys_thread), ⟨2, false⟩] :=
  ⟨by decide,
   (C6_pause_unpause_roundtrip [⟨1, false⟩, ⟨2, false⟩] 1 true (by decide)).1⟩

/-- C10 counterexample: os.setenv called with no arguments returns no value
at all, not boolean false as the claim states: set_env returns before pushing
anything when the name argument is missing. -/
theorem C10_setenv_counterexample :
    set_env stub_ops [] = ([], []) ∧
    (set_env stub_ops []).1 ≠ [lua_value.boolean false] :=
  ⟨rfl, fun h => List.noConfusion h⟩

/-- C10 amended: for every modelled Lua os.* binding, a required argument
that is missing or rejected by the string check never reaches the underlying
OS operation, but the failure is signaled inconsistently: os.chdir, os.mkdir
and os.rmdir return boolean false, while os.isdir, os.isfile, os.ishidden,
os.unlink, os.copy, os.getenv, os.setenv and the glob functions return no
value at all. -/
theorem C10_arg_check_signaling (ops : os_ops) (args : List lua_value) :
    (get_string args 1 = none →
      set_current_dir ops args = ([lua_value.boolean false], [])) ∧
    (get_string args 1 = none →
      make_dir ops args = ([lua_value.boolean false], [])) ∧
    (get_string args 1 = none →
      remove_dir ops args = ([lua_value.boolean false], [])) ∧
    (get_string args 1 = none → is_dir ops args = ([], [])) ∧
    (get_string args 1 = none → is_file ops args = ([], [])) ∧
    (get_string args 1 = none → is_hidden ops args = ([], [])) ∧
    (get_string args 1 = none → unlink ops args = ([], [])) ∧
    (get_string args 1 = none ∨ get_string args 2 = none →
      copy ops args = ([], [])) ∧
    (get_string args 1 = none → get_env ops args = ([], [])) ∧
    (get_string args 1 = none → set_env ops args = ([], [])) ∧
    (get_string args 1 = none → glob_dirs ops args = ([], [])) ∧
    (get_string args 1 = none → glob_files ops args = ([], [])) := by
  refine ⟨?_, ?_, ?_, ?_, ?_, ?_, ?_, ?_, ?_, ?_, ?_, ?_⟩
  · intro h; simp [set_current_dir, h]
  · intro h; simp [make_dir, h]
  · intro h; simp [remove_dir, h]
  · intro h; simp [is_dir, h]
  · intro h; simp [is_file, h]
  · intro h; simp [is_hidden, h]
  · intro h; simp [unlink, h]
  · intro h
    rcases h with h | h
    · simp [copy, h]
    · cases hg1 : get_string args 1 with
      | none => simp [copy, hg1]
      | some s => simp [copy, hg1, h]
  · intro h; simp [get_env, h]
  · intro h; simp [set_env, h]
  · intro h; simp [glob_dirs, glob_impl, h]
  · intro h; simp [glob_files, glob_impl, h]

/-- Witness for C10 amended, at the empty argument list. -/
theorem C10_arg_check_signaling_witness :
    get_string [] 1 = none ∧
    set_current_dir stub_ops [] = ([lua_value.boolean false], []) ∧
    is_dir stub_ops [] = ([], []) ∧
    copy stub_ops [] = ([], []) ∧
    set_env stub_ops [] = ([], []) ∧
    glob_dirs stub_ops [] = ([], []) :=
  ⟨rfl,
   (C10_arg_check_signaling stub_ops []).1 rfl,
   (C10_arg_check_signaling stub_ops []).2.2.2.1 rfl,
   (C10_arg_check_signaling stub_ops []).2.2.2.2.2.2.2.1 (Or.inl rfl),
   (C10_arg_check_signaling stub_ops []).2.2.2.2.2.2.2.2.2.1 rfl,
   (C10_arg_check_signaling stub_ops []).2.2.2.2.2.2.2.2.2.2.1 rfl⟩
